import Mathlib

/-!
Shallow embedding of src/pathofexile/api.py (a Path of Exile API client,
Python 2). Each request function of the source is split into a pure
request-construction part (the validation code up to the requests.get call,
returning either the raised exception class or the Request it would issue)
and, where the source inspects the response, a composite that applies an
abstract transport to the constructed request. The transport is applied only
when the request stage succeeds, so a validation error means no GET is issued.
-/

namespace PoE

/-- Python runtime values that can reach the parameters of the source
functions in the scenarios of interest: None, an int, or a (base)string. -/
inductive Value where
  | none : Value
  | int : Int → Value
  | str : String → Value
deriving DecidableEq, Repr

/-- Python isinstance(v, basestring) on an embedded value. -/
def Value.isStr : Value → Bool
  | Value.str _ => true
  | _ => false

/-- Python equality between embedded values: values of distinct types among
int, str and None compare unequal (in particular an int is never equal to a
string, as in the source line r.status_code == '429'). -/
def pyEq : Value → Value → Bool
  | Value.int a, Value.int b => a == b
  | Value.str a, Value.str b => a == b
  | Value.none, Value.none => true
  | _, _ => false

/-- Python str(v), as used by the %s interpolation into the endpoint URL. -/
def pyStr : Value → String
  | Value.none => "None"
  | Value.int n => toString n
  | Value.str s => s

/-- Drop leading whitespace characters from a character list. -/
def dropLeadingSpaces : List Char → List Char
  | [] => []
  | c :: cs => if c.isWhitespace then dropLeadingSpaces cs else c :: cs

/-- Strip whitespace from both ends of a character list. -/
def stripSpaces (cs : List Char) : List Char :=
  ((dropLeadingSpaces ((dropLeadingSpaces cs).reverse)).reverse)

/-- Python int(v) on a string: surrounding whitespace is stripped, then an
optional single sign followed by at least one decimal digit. Option.none is
the raised coercion failure, caught by the bare except in get_league_rule. -/
def pyParseInt (s : String) : Option Int :=
  let t := stripSpaces s.toList
  let signAndDigits : Int × List Char :=
    match t with
    | '-' :: rest => (-1, rest)
    | '+' :: rest => (1, rest)
    | cs => (1, cs)
  if signAndDigits.2 = [] ∨ ¬ signAndDigits.2.all Char.isDigit then
    Option.none
  else
    Option.some (signAndDigits.1 *
      (signAndDigits.2.foldl (fun acc c => acc * 10 + (c.toNat - 48)) 0 : Nat))

def pyInt : Value → Option Int
  | Value.int n => Option.some n
  | Value.str s => pyParseInt s
  | Value.none => Option.none

/-- The exception classes declared at the top of api.py. -/
inductive ExcClass where
  | exception
  | invalidParameterError
  | invalidLeagueTypeError
  | invalidSeasonError
  | invalidCompactInfoError
  | invalidLeagueLimitError
  | invalidLeagueOffsetError
  | invalidLeagueIdError
  | invalidLadderInclusionError
  | invalidLadderLimitError
  | invalidLadderOffsetError
  | invalidLeagueRuleIdError
  | invalidLadderIdError
  | rateLimitExceededError
deriving DecidableEq, Repr

/-- The declared base class of each exception class in api.py: the eleven
per-field classes extend InvalidParameterError; InvalidParameterError and
RateLimitExceededError extend the built-in Exception. -/
def ExcClass.base : ExcClass → Option ExcClass
  | ExcClass.exception => Option.none
  | ExcClass.invalidParameterError => Option.some ExcClass.exception
  | ExcClass.invalidLeagueTypeError => Option.some ExcClass.invalidParameterError
  | ExcClass.invalidSeasonError => Option.some ExcClass.invalidParameterError
  | ExcClass.invalidCompactInfoError => Option.some ExcClass.invalidParameterError
  | ExcClass.invalidLeagueLimitError => Option.some ExcClass.invalidParameterError
  | ExcClass.invalidLeagueOffsetError => Option.some ExcClass.invalidParameterError
  | ExcClass.invalidLeagueIdError => Option.some ExcClass.invalidParameterError
  | ExcClass.invalidLadderInclusionError => Option.some ExcClass.invalidParameterError
  | ExcClass.invalidLadderLimitError => Option.some ExcClass.invalidParameterError
  | ExcClass.invalidLadderOffsetError => Option.some ExcClass.invalidParameterError
  | ExcClass.invalidLeagueRuleIdError => Option.some ExcClass.invalidParameterError
  | ExcClass.invalidLadderIdError => Option.some ExcClass.invalidParameterError
  | ExcClass.rateLimitExceededError => Option.some ExcClass.exception

/-- Walk up at most fuel steps of the base-class chain. -/
def isSubclassOfAux : Nat → ExcClass → ExcClass → Bool
  | 0, _, _ => false
  | fuel + 1, c, d =>
    decide (c = d) ||
      (match ExcClass.base c with
       | Option.none => false
       | Option.some b => isSubclassOfAux fuel b d)

/-- Python issubclass on the hierarchy of api.py: an except-E handler catches
a raised instance of class c exactly when isSubclassOf c E. The hierarchy is
at most three classes deep, so fuel 4 is exact. -/
def isSubclassOf (c d : ExcClass) : Bool := isSubclassOfAux 4 c d

/-- An HTTP GET request as handed to requests.get: the endpoint URL and the
query parameters, modelled as an association list in insertion order. -/
structure Request where
  endpoint : String
  params : List (String × Value)
deriving DecidableEq, Repr

/-- An HTTP response as produced by requests: status_code is an integer in
the requests library, and the body stands for the decoded JSON r.json(). -/
structure Response where
  status_code : Int
  body : Value
deriving DecidableEq, Repr

/-- The league-limit condition of get_leagues:
league_limit is None or (league_limit >= 0 and league_limit <= 230). -/
def leagueLimitOk : Option Int → Bool
  | Option.none => true
  | Option.some l => decide (0 ≤ l) && decide (l ≤ 230)

/-- Validation and request construction of get_leagues, line by line:
each if-guard mirrors one raise in the source; the params dict starts as
type/compact/offset and gains season and limit only when not None. -/
def get_leagues_request (league_type : String) (season : Value)
    (compact_info : Int) (league_limit : Option Int) (league_offset : Int) :
    Except ExcClass Request :=
  if league_type ∉ (["all", "main", "season", "event"] : List String) then
    Except.error ExcClass.invalidLeagueTypeError
  else if league_type = "season" ∧ season.isStr = false then
    Except.error ExcClass.invalidSeasonError
  else if compact_info ∉ ([0, 1] : List Int) then
    Except.error ExcClass.invalidCompactInfoError
  else if leagueLimitOk league_limit = false then
    Except.error ExcClass.invalidLeagueLimitError
  else if ¬ league_offset ≥ 0 then
    Except.error ExcClass.invalidLeagueOffsetError
  else
    let params : List (String × Value) :=
      [("type", Value.str league_type), ("compact", Value.int compact_info),
       ("offset", Value.int league_offset)]
    let params := if season ≠ Value.none then params ++ [("season", season)] else params
    let params :=
      match league_limit with
      | Option.none => params
      | Option.some l => params ++ [("limit", Value.int l)]
    Except.ok ⟨"http://api.pathofexile.com/leagues", params⟩

/-- get_leagues in full: on passing validation the request is handed to the
transport (requests.get) and the decoded body is returned unconditionally. -/
def get_leagues (league_type : String) (season : Value) (compact_info : Int)
    (league_limit : Option Int) (league_offset : Int)
    (transport : Request → Response) : Except ExcClass Value :=
  match get_leagues_request league_type season compact_info league_limit league_offset with
  | Except.error e => Except.error e
  | Except.ok req => Except.ok (transport req).body

/-- Validation and request construction of get_league. -/
def get_league_request (league_id : Value) (ladder : Int) (ladder_limit : Int)
    (ladder_offset : Int) : Except ExcClass Request :=
  if league_id.isStr = false then
    Except.error ExcClass.invalidLeagueIdError
  else if ladder ∉ ([0, 1] : List Int) then
    Except.error ExcClass.invalidLadderInclusionError
  else if (¬ ladder_limit > 0) ∨ (¬ ladder_limit ≤ 200) then
    Except.error ExcClass.invalidLadderLimitError
  else if (¬ ladder_offset ≥ 0) ∨ (¬ ladder_offset < 15000) then
    Except.error ExcClass.invalidLadderOffsetError
  else
    Except.ok ⟨"http://api.pathofexile.com/leagues/" ++ pyStr league_id,
      [("id", league_id), ("ladder", Value.int ladder),
       ("ladderLimit", Value.int ladder_limit),
       ("ladderOffset", Value.int ladder_offset)]⟩

/-- get_league in full: the body of the response is returned unconditionally. -/
def get_league (league_id : Value) (ladder : Int) (ladder_limit : Int)
    (ladder_offset : Int) (transport : Request → Response) : Except ExcClass Value :=
  match get_league_request league_id ladder ladder_limit ladder_offset with
  | Except.error e => Except.error e
  | Except.ok req => Except.ok (transport req).body

/-- get_league_rules: no parameters, no validation, no query parameters. -/
def get_league_rules_request : Except ExcClass Request :=
  Except.ok ⟨"http://api.pathofexile.com/league-rules", []⟩

/-- Validation and request construction of get_league_rule: the argument is
coerced with int(); the bare except turns any coercion failure into
InvalidLeagueRuleIdError; the integer is %d-interpolated into the path. -/
def get_league_rule_request (league_rule_id : Value) : Except ExcClass Request :=
  match pyInt league_rule_id with
  | Option.none => Except.error ExcClass.invalidLeagueRuleIdError
  | Option.some n =>
    Except.ok ⟨"http://api.pathofexile.com/league-rules/" ++ toString n, []⟩

/-- get_league_rule in full. -/
def get_league_rule (league_rule_id : Value) (transport : Request → Response) :
    Except ExcClass Value :=
  match get_league_rule_request league_rule_id with
  | Except.error e => Except.error e
  | Except.ok req => Except.ok (transport req).body

/-- Validation and request construction of get_ladder_segment. -/
def get_ladder_segment_request (ladder_id : Value) (ladder_limit : Int)
    (ladder_offset : Int) : Except ExcClass Request :=
  if ladder_id.isStr = false then
    Except.error ExcClass.invalidLadderIdError
  else if (¬ ladder_limit > 0) ∨ (¬ ladder_limit ≤ 200) then
    Except.error ExcClass.invalidLadderLimitError
  else if (¬ ladder_offset ≥ 0) ∨ (¬ ladder_offset < 15000) then
    Except.error ExcClass.invalidLadderOffsetError
  else
    Except.ok ⟨"http://api.pathofexile.com/ladders",
      [("id", ladder_id), ("limit", Value.int ladder_limit),
       ("offset", Value.int ladder_offset)]⟩

/-- get_ladder_segment in full: after the GET, the source tests
r.status_code == '429' — a Python equality between the integer status code
and the string '429' — and raises RateLimitExceededError when it holds,
returning r.json() otherwise. -/
def get_ladder_segment (ladder_id : Value) (ladder_limit : Int)
    (ladder_offset : Int) (transport : Request → Response) : Except ExcClass Value :=
  match get_ladder_segment_request ladder_id ladder_limit ladder_offset with
  | Except.error e => Except.error e
  | Except.ok req =>
    let r := transport req
    if pyEq (Value.int r.status_code) (Value.str "429") then
      Except.error ExcClass.rateLimitExceededError
    else
      Except.ok r.body

/-- Did the request stage accept the parameters (so a GET would be issued)? -/
def isOk : Except ExcClass Request → Bool
  | Except.ok _ => true
  | Except.error _ => false

/-- The query parameters the spec documents for listLeagues: type, compact
and offset always, season only when provided, limit only when provided. -/
def specLeaguesParams (league_type : String) (season : Value)
    (compact_info league_offset : Int) (league_limit : Option Int) :
    List (String × Value) :=
  [("type", Value.str league_type), ("compact", Value.int compact_info),
   ("offset", Value.int league_offset)]
  ++ (if season = Value.none then [] else [("season", season)])
  ++ (match league_limit with
      | Option.none => []
      | Option.some l => [("limit", Value.int l)])

/-- The query parameters the spec documents for getLeague. -/
def specLeagueParams (league_id : Value) (ladder ladder_limit ladder_offset : Int) :
    List (String × Value) :=
  [("id", league_id), ("ladder", Value.int ladder),
   ("ladderLimit", Value.int ladder_limit),
   ("ladderOffset", Value.int ladder_offset)]

/-- The query parameters the spec documents for getLadderSegment. -/
def specLadderParams (ladder_id : Value) (ladder_limit ladder_offset : Int) :
    List (String × Value) :=
  [("id", ladder_id), ("limit", Value.int ladder_limit),
   ("offset", Value.int ladder_offset)]

/-- C1: the source tests r.status_code == '429', but requests gives an
integer status code and Python equality between an int and a string is
always False; so for EVERY status — 429 included — get_ladder_segment
returns the decoded body and never raises RateLimitExceededError. The
second conjunct evaluates the code at the failing input status 429. -/
theorem c1_status_429_returns_body_not_error :
    (∀ (status : Int) (body : Value),
        get_ladder_segment (Value.str "Standard") 20 0
          (fun _ => ⟨status, body⟩) = Except.ok body)
    ∧ get_ladder_segment (Value.str "Standard") 20 0
        (fun _ => ⟨429, Value.str "ladder entries"⟩)
      = Except.ok (Value.str "ladder entries") := by
  refine ⟨?_, rfl⟩
  intro status body
  have hreq : get_ladder_segment_request (Value.str "Standard") 20 0
      = Except.ok ⟨"http://api.pathofexile.com/ladders",
          [("id", Value.str "Standard"), ("limit", Value.int 20),
           ("offset", Value.int 0)]⟩ := rfl
  simp [get_ladder_segment, hreq, pyEq]

/-- C2 counterexample: with type season and season the EMPTY string, the
source's isinstance check passes, no InvalidSeasonError is raised, and the
request is built with the empty season included — refuting the claim that
an empty season raises. -/
theorem c2_empty_season_accepted :
    get_leagues_request "season" (Value.str "") 0 Option.none 0
      = Except.ok ⟨"http://api.pathofexile.com/leagues",
          [("type", Value.str "season"), ("compact", Value.int 0),
           ("offset", Value.int 0), ("season", Value.str "")]⟩ := by
  rfl

/-- C2 amended: with type season and a season that is not a string (None in
particular), InvalidSeasonError is raised before any network call — the
request stage errors whatever the later parameters are, and the full call
errors for every transport; an empty-string season, however, is accepted. -/
theorem c2_season_error_on_non_string :
    ∀ season : Value, season.isStr = false →
      ∀ (compact_info : Int) (league_limit : Option Int) (league_offset : Int),
        get_leagues_request "season" season compact_info league_limit league_offset
          = Except.error ExcClass.invalidSeasonError
        ∧ ∀ transport,
            get_leagues "season" season compact_info league_limit league_offset transport
              = Except.error ExcClass.invalidSeasonError := by
  intro season h compact_info league_limit league_offset
  have hreq : get_leagues_request "season" season compact_info league_limit league_offset
      = Except.error ExcClass.invalidSeasonError := by
    simp only [get_leagues_request]
    rw [if_neg (by decide), if_pos (by simp [h])]
  exact ⟨hreq, fun transport => by simp [get_leagues, hreq]⟩

/-- C2 witness: instantiating the amended theorem at season = None with
arbitrary later parameters. -/
theorem c2_season_error_on_non_string_witness :
    Value.isStr Value.none = false ∧
      get_leagues_request "season" Value.none 3 (Option.some 999) (-5)
        = Except.error ExcClass.invalidSeasonError :=
  ⟨by decide, (c2_season_error_on_non_string Value.none (by decide) 3 (Option.some 999) (-5)).1⟩

/-- C3 counterexample: league_id the empty string IS an instance of
basestring, so get_league with the empty id and includeLadder=1,
ladderLimit=200, ladderOffset=14999 passes validation and builds the
request — refuting the claim that the empty string raises the error. -/
theorem c3_empty_league_id_accepted :
    get_league_request (Value.str "") 1 200 14999
      = Except.ok ⟨"http://api.pathofexile.com/leagues/",
          [("id", Value.str ""), ("ladder", Value.int 1),
           ("ladderLimit", Value.int 200), ("ladderOffset", Value.int 14999)]⟩ := by
  rfl

/-- C3 amended: get_league raises InvalidLeagueIdError exactly for a
league_id that is not a string (the isinstance check, which the empty
string passes), and ANY string id with includeLadder=1, ladderLimit=200,
ladderOffset=14999 passes validation and the request is issued. -/
theorem c3_league_id_validation :
    (∀ league_id : Value, league_id.isStr = false →
      ∀ (ladder ladder_limit ladder_offset : Int),
        get_league_request league_id ladder ladder_limit ladder_offset
          = Except.error ExcClass.invalidLeagueIdError
        ∧ ∀ transport,
            get_league league_id ladder ladder_limit ladder_offset transport
              = Except.error ExcClass.invalidLeagueIdError)
    ∧ (∀ s : String,
        get_league_request (Value.str s) 1 200 14999
          = Except.ok ⟨"http://api.pathofexile.com/leagues/" ++ s,
              [("id", Value.str s), ("ladder", Value.int 1),
               ("ladderLimit", Value.int 200), ("ladderOffset", Value.int 14999)]⟩) := by
  constructor
  · intro league_id h ladder ladder_limit ladder_offset
    have hreq : get_league_request league_id ladder ladder_limit ladder_offset
        = Except.error ExcClass.invalidLeagueIdError := by
      simp only [get_league_request]
      rw [if_pos h]
    exact ⟨hreq, fun transport => by simp [get_league, hreq]⟩
  · intro s
    simp only [get_league_request]
    rw [if_neg (by simp [Value.isStr]), if_neg (by decide), if_neg (by decide),
      if_neg (by decide)]
    simp [pyStr]

/-- C3 witness: instantiating the amended theorem at league_id = None. -/
theorem c3_league_id_validation_witness :
    Value.isStr Value.none = false ∧
      get_league_request Value.none 0 20 0
        = Except.error ExcClass.invalidLeagueIdError :=
  ⟨by decide, (c3_league_id_validation.1 Value.none (by decide) 0 20 0).1⟩

/-- C5: get_league_rule coerces its argument with int(); whenever the
coercion fails (the bare except catches the failure) it raises
InvalidLeagueRuleIdError — the request stage errors, so no network call
occurs and the full call errors for every transport — and the coercible
string 42 yields a request for integer rule id 42 interpolated into the
path. -/
theorem c5_league_rule_coercion :
    (∀ v : Value, pyInt v = Option.none →
      get_league_rule_request v = Except.error ExcClass.invalidLeagueRuleIdError
      ∧ ∀ transport,
          get_league_rule v transport = Except.error ExcClass.invalidLeagueRuleIdError)
    ∧ get_league_rule_request (Value.str "42")
        = Except.ok ⟨"http://api.pathofexile.com/league-rules/42", []⟩ := by
  constructor
  · intro v h
    have hreq : get_league_rule_request v
        = Except.error ExcClass.invalidLeagueRuleIdError := by
      simp [get_league_rule_request, h]
    exact ⟨hreq, fun transport => by simp [get_league_rule, hreq]⟩
  · rfl

/-- C5 witness: the string abc is not coercible and raises the error. -/
theorem c5_league_rule_coercion_witness :
    pyInt (Value.str "abc") = Option.none ∧
      get_league_rule_request (Value.str "abc")
        = Except.error ExcClass.invalidLeagueRuleIdError :=
  ⟨by decide, (c5_league_rule_coercion.1 (Value.str "abc") (by decide)).1⟩

/-- C9: in the source hierarchy RateLimitExceededError extends Exception
directly, not InvalidParameterError, so an except-InvalidParameterError
handler never catches it, while each of the eleven per-field classes is a
subclass of InvalidParameterError and is caught. -/
theorem c9_rate_limit_outside_invalid_parameter_family :
    isSubclassOf ExcClass.rateLimitExceededError ExcClass.invalidParameterError = false
    ∧ ([ExcClass.invalidLeagueTypeError, ExcClass.invalidSeasonError,
        ExcClass.invalidCompactInfoError, ExcClass.invalidLeagueLimitError,
        ExcClass.invalidLeagueOffsetError, ExcClass.invalidLeagueIdError,
        ExcClass.invalidLadderInclusionError, ExcClass.invalidLadderLimitError,
        ExcClass.invalidLadderOffsetError, ExcClass.invalidLeagueRuleIdError,
        ExcClass.invalidLadderIdError].all
          (fun c => isSubclassOf c ExcClass.invalidParameterError)) = true := by
  decide

/-- C6: a provided league limit outside the inclusive interval 0..230 makes
get_leagues raise InvalidLeagueLimitError for every transport, while
limit 0, limit 230 and an absent limit all pass validation. -/
theorem c6_league_limit_validation :
    (∀ l : Int, (l < 0 ∨ 230 < l) →
      ∀ transport, get_leagues "all" Value.none 0 (Option.some l) 0 transport
        = Except.error ExcClass.invalidLeagueLimitError)
    ∧ isOk (get_leagues_request "all" Value.none 0 (Option.some 0) 0) = true
    ∧ isOk (get_leagues_request "all" Value.none 0 (Option.some 230) 0) = true
    ∧ isOk (get_leagues_request "all" Value.none 0 Option.none 0) = true := by
  refine ⟨?_, rfl, rfl, rfl⟩
  intro l hl transport
  have hlim : leagueLimitOk (Option.some l) = false := by
    simp only [leagueLimitOk, Bool.and_eq_false_iff, decide_eq_false_iff_not]
    omega
  have hreq : get_leagues_request "all" Value.none 0 (Option.some l) 0
      = Except.error ExcClass.invalidLeagueLimitError := by
    simp only [get_leagues_request]
    rw [if_neg (by decide), if_neg (by decide), if_neg (by decide), if_pos hlim]
  simp [get_leagues, hreq]

/-- C6 witness: limit 231 is rejected. -/
theorem c6_league_limit_validation_witness :
    ((231 : Int) < 0 ∨ (230 : Int) < 231) ∧
      get_leagues "all" Value.none 0 (Option.some 231) 0
          (fun _ => ⟨200, Value.none⟩)
        = Except.error ExcClass.invalidLeagueLimitError :=
  ⟨Or.inr (by decide),
    c6_league_limit_validation.1 231 (Or.inr (by decide)) (fun _ => ⟨200, Value.none⟩)⟩

/-- C7: a ladder offset of at least 15000 (the upper bound is exclusive)
makes both get_league and get_ladder_segment raise InvalidLadderOffsetError
for every transport, while offset 0 passes validation in both. -/
theorem c7_ladder_offset_upper_bound :
    (∀ off : Int, 15000 ≤ off →
      (∀ transport, get_league (Value.str "Standard") 0 20 off transport
          = Except.error ExcClass.invalidLadderOffsetError)
      ∧ (∀ transport, get_ladder_segment (Value.str "Standard") 20 off transport
          = Except.error ExcClass.invalidLadderOffsetError))
    ∧ isOk (get_league_request (Value.str "Standard") 0 20 0) = true
    ∧ isOk (get_ladder_segment_request (Value.str "Standard") 20 0) = true := by
  refine ⟨?_, rfl, rfl⟩
  intro off hoff
  have hcond : (¬ off ≥ 0) ∨ (¬ off < 15000) := Or.inr (by omega)
  have h1 : get_league_request (Value.str "Standard") 0 20 off
      = Except.error ExcClass.invalidLadderOffsetError := by
    simp only [get_league_request]
    rw [if_neg (by decide), if_neg (by decide), if_neg (by decide), if_pos hcond]
  have h2 : get_ladder_segment_request (Value.str "Standard") 20 off
      = Except.error ExcClass.invalidLadderOffsetError := by
    simp only [get_ladder_segment_request]
    rw [if_neg (by decide), if_neg (by decide), if_pos hcond]
  exact ⟨fun transport => by simp [get_league, h1],
    fun transport => by simp [get_ladder_segment, h2]⟩

/-- C7 witness: ladder offset exactly 15000 is rejected by both calls. -/
theorem c7_ladder_offset_upper_bound_witness :
    (15000 : Int) ≤ 15000 ∧
      get_league (Value.str "Standard") 0 20 15000 (fun _ => ⟨200, Value.none⟩)
        = Except.error ExcClass.invalidLadderOffsetError ∧
      get_ladder_segment (Value.str "Standard") 20 15000 (fun _ => ⟨200, Value.none⟩)
        = Except.error ExcClass.invalidLadderOffsetError :=
  ⟨by decide,
    (c7_ladder_offset_upper_bound.1 15000 (by decide)).1 (fun _ => ⟨200, Value.none⟩),
    (c7_ladder_offset_upper_bound.1 15000 (by decide)).2 (fun _ => ⟨200, Value.none⟩)⟩

/-- C8: an invalid league type makes get_leagues raise
InvalidLeagueTypeError as its very first check: the request stage errors,
so no Request is ever handed to the transport and no GET is issued, and the
full call errors identically for every transport. -/
theorem c8_invalid_type_before_network :
    ∀ league_type : String,
      league_type ∉ (["all", "main", "season", "event"] : List String) →
      ∀ (season : Value) (compact_info : Int) (league_limit : Option Int)
        (league_offset : Int),
        get_leagues_request league_type season compact_info league_limit league_offset
          = Except.error ExcClass.invalidLeagueTypeError
        ∧ ∀ transport,
            get_leagues league_type season compact_info league_limit league_offset transport
              = Except.error ExcClass.invalidLeagueTypeError := by
  intro league_type hlt season compact_info league_limit league_offset
  have hreq : get_leagues_request league_type season compact_info league_limit league_offset
      = Except.error ExcClass.invalidLeagueTypeError := by
    simp only [get_leagues_request]
    rw [if_pos hlt]
  exact ⟨hreq, fun transport => by simp [get_leagues, hreq]⟩

/-- C8 witness: the league type standardx is rejected. -/
theorem c8_invalid_type_before_network_witness :
    "standardx" ∉ (["all", "main", "season", "event"] : List String) ∧
      get_leagues_request "standardx" Value.none 0 Option.none 0
        = Except.error ExcClass.invalidLeagueTypeError :=
  ⟨by decide,
    (c8_invalid_type_before_network "standardx" (by decide) Value.none 0 Option.none 0).1⟩

/-- C10: for a valid league type other than season, the season argument is
never validated: with season None the request omits the season key, and
with ANY non-None season (of any type, strings and ints alike) validation
passes and the value is included under the season key. -/
theorem c10_season_not_validated_for_other_types :
    ∀ league_type : String,
      league_type ∈ (["all", "main", "event"] : List String) →
      ∀ season : Value,
        (season = Value.none →
          get_leagues_request league_type season 0 Option.none 0
            = Except.ok ⟨"http://api.pathofexile.com/leagues",
                [("type", Value.str league_type), ("compact", Value.int 0),
                 ("offset", Value.int 0)]⟩)
        ∧ (season ≠ Value.none →
          get_leagues_request league_type season 0 Option.none 0
            = Except.ok ⟨"http://api.pathofexile.com/leagues",
                [("type", Value.str league_type), ("compact", Value.int 0),
                 ("offset", Value.int 0), ("season", season)]⟩) := by
  intro league_type hlt season
  have hcases : league_type = "all" ∨ league_type = "main" ∨ league_type = "event" := by
    simpa using hlt
  have hmem : league_type ∈ (["all", "main", "season", "event"] : List String) := by
    rcases hcases with rfl | rfl | rfl <;> decide
  have hne : league_type ≠ "season" := by
    rcases hcases with rfl | rfl | rfl <;> decide
  constructor
  · intro hs
    subst hs
    simp only [get_leagues_request]
    rw [if_neg (not_not_intro hmem), if_neg (by simp [hne]), if_neg (by decide),
      if_neg (by decide), if_neg (by decide)]
    simp
  · intro hs
    simp only [get_leagues_request]
    rw [if_neg (not_not_intro hmem), if_neg (by simp [hne]), if_neg (by decide),
      if_neg (by decide), if_neg (by decide)]
    simp [hs]

/-- C10 witness: with type event, an integer season 7 passes validation and
is sent under the season key; a None season omits the key. -/
theorem c10_season_not_validated_witness :
    get_leagues_request "event" (Value.int 7) 0 Option.none 0
        = Except.ok ⟨"http://api.pathofexile.com/leagues",
            [("type", Value.str "event"), ("compact", Value.int 0),
             ("offset", Value.int 0), ("season", Value.int 7)]⟩ ∧
      get_leagues_request "event" Value.none 0 Option.none 0
        = Except.ok ⟨"http://api.pathofexile.com/leagues",
            [("type", Value.str "event"), ("compact", Value.int 0),
             ("offset", Value.int 0)]⟩ :=
  ⟨(c10_season_not_validated_for_other_types "event" (by decide) (Value.int 7)).2
      (by decide),
    (c10_season_not_validated_for_other_types "event" (by decide) Value.none).1 rfl⟩

/-- C4: whenever a parameter set is accepted (the request stage returns a
request rather than raising), the query parameters handed to the transport
are exactly the documented ones: type, compact and offset — plus season and
limit only when provided — for listLeagues; id, ladder, ladderLimit and
ladderOffset for getLeague; id, limit and offset for getLadderSegment. -/
theorem c4_query_params_exact :
    (∀ (league_type : String) (season : Value) (compact_info : Int)
        (league_limit : Option Int) (league_offset : Int) (req : Request),
        get_leagues_request league_type season compact_info league_limit league_offset
            = Except.ok req →
        req.params = specLeaguesParams league_type season compact_info league_offset
          league_limit)
    ∧ (∀ (league_id : Value) (ladder ladder_limit ladder_offset : Int) (req : Request),
        get_league_request league_id ladder ladder_limit ladder_offset = Except.ok req →
        req.params = specLeagueParams league_id ladder ladder_limit ladder_offset)
    ∧ (∀ (ladder_id : Value) (ladder_limit ladder_offset : Int) (req : Request),
        get_ladder_segment_request ladder_id ladder_limit ladder_offset = Except.ok req →
        req.params = specLadderParams ladder_id ladder_limit ladder_offset) := by
  refine ⟨?_, ?_, ?_⟩
  · intro league_type season compact_info league_limit league_offset req h
    simp only [get_leagues_request] at h
    repeat' split at h
    all_goals simp_all [specLeaguesParams]
    all_goals subst h
    all_goals rfl
  · intro league_id ladder ladder_limit ladder_offset req h
    simp only [get_league_request] at h
    repeat' split at h
    all_goals simp_all [specLeagueParams]
    all_goals subst h
    all_goals rfl
  · intro ladder_id ladder_limit ladder_offset req h
    simp only [get_ladder_segment_request] at h
    repeat' split at h
    all_goals simp_all [specLadderParams]
    all_goals subst h
    all_goals rfl

/-- C4 witness: one accepted parameter set per operation, exercising both a
provided season and a provided limit on listLeagues. -/
theorem c4_query_params_exact_witness :
    (Request.params ⟨"http://api.pathofexile.com/leagues",
        [("type", Value.str "main"), ("compact", Value.int 1), ("offset", Value.int 2),
         ("season", Value.str "harbinger"), ("limit", Value.int 230)]⟩
      = specLeaguesParams "main" (Value.str "harbinger") 1 2 (Option.some 230))
    ∧ (Request.params ⟨"http://api.pathofexile.com/leagues/Standard",
        [("id", Value.str "Standard"), ("ladder", Value.int 1),
         ("ladderLimit", Value.int 200), ("ladderOffset", Value.int 14999)]⟩
      = specLeagueParams (Value.str "Standard") 1 200 14999)
    ∧ (Request.params ⟨"http://api.pathofexile.com/ladders",
        [("id", Value.str "Standard"), ("limit", Value.int 20), ("offset", Value.int 0)]⟩
      = specLadderParams (Value.str "Standard") 20 0) :=
  ⟨c4_query_params_exact.1 "main" (Value.str "harbinger") 1 (Option.some 230) 2 _ rfl,
    c4_query_params_exact.2.1 (Value.str "Standard") 1 200 14999 _ rfl,
    c4_query_params_exact.2.2 (Value.str "Standard") 20 0 _ rfl⟩

end PoE
